import Mathlib

/-!
Verification of the pyolimp loss-function / configuration subsystem.

This file shallowly embeds the code of
`src/olimp/precompensation/nn/train/config/{base,loss_function,model,distortion}.py`
and `src/olimp/evaluation/loss/{__init__,nrmse,ssim}.py` and proves or refutes
the frozen claims about it.  Tensors are modelled with exact rationals; the
floating-point primitives that a shallow embedding cannot compute exactly
(`torch.sqrt`, `torch.exp`, Python's `hash`, the per-element draws of
`torch.normal`) are taken as explicit function parameters, so every definition
stays executable while following the source line by line.
-/

namespace Olimp

/-! ## Configuration values and validation

The configuration classes all derive from `StrictModel`
(`src/olimp/precompensation/nn/train/config/base.py`), a pydantic `BaseModel`
with `extra = "forbid"`.  We model a pydantic input mapping as an association
list of field name to value, and pydantic's validation of such a strict model
as `validateFields`: every supplied key must be a declared field whose value
passes that field's check, and every required field must be supplied.  This
follows pydantic's documented behaviour for `extra = "forbid"` models. -/

/-- Value of a configuration field, mirroring the JSON-ish values pydantic
validates: strings, integers, floats (exact rationals here), booleans,
`None`, and lists. -/
inductive PyVal where
  | str (s : String)
  | int (n : ℤ)
  | rat (q : ℚ)
  | bool (b : Bool)
  | none
  | intlist (l : List ℤ)
deriving DecidableEq

/-- Declared field of a configuration class: its name, whether a value is
required (no default in the source), and the per-field value check coming
from the field's type annotation. -/
structure FieldSpec where
  fname : String
  required : Bool
  ok : PyVal → Bool

/-- Value check for `int` fields. -/
def isIntVal : PyVal → Bool
  | .int _ => true
  | _ => false

/-- Value check for `float` fields (pydantic also accepts ints for floats). -/
def isNumVal : PyVal → Bool
  | .int _ => true
  | .rat _ => true
  | _ => false

/-- Value check for `bool` fields. -/
def isBoolVal : PyVal → Bool
  | .bool _ => true
  | _ => false

/-- Value check for `str | None` fields (the `path` fields of model configs). -/
def isStrOrNone : PyVal → Bool
  | .str _ => true
  | .none => true
  | _ => false

/-- Value check for a `Literal[s]` string field. -/
def isLit (s : String) : PyVal → Bool
  | .str t => t = s
  | _ => false

/-- Value check for a string field restricted to a finite set of literals. -/
def isLitIn (ss : List String) : PyVal → Bool
  | .str t => ss.contains t
  | _ => false

/-- Value check for `Degree = Literal[10, 20, ..., 100]`. -/
def isDegree : PyVal → Bool
  | .int n => [10, 20, 30, 40, 50, 60, 70, 80, 90, 100].contains n
  | _ => false

/-- Value check for `Annotated[float, confloat(ge=0, le=1)]`. -/
def isUnitFloat : PyVal → Bool
  | .int n => decide (0 ≤ n ∧ n ≤ 1)
  | .rat q => decide (0 ≤ q ∧ q ≤ 1)
  | _ => false

/-- Value check for `list[int]` fields (`nc` of `PrecompensationUSRNet`). -/
def isIntList : PyVal → Bool
  | .intlist _ => true
  | _ => false

/-- Pydantic validation of a strict (`extra = "forbid"`) model from an input
mapping: every supplied key must name a declared field and its value must
pass that field's check (an undeclared key fails — `extra = "forbid"`), and
every required field must be supplied. -/
def validateFields (fs : List FieldSpec) (m : List (String × PyVal)) : Bool :=
  m.all (fun kv =>
    match fs.find? (fun f => f.fname = kv.1) with
    | some f => f.ok kv.2
    | Option.none => false)
  && fs.all (fun f => !f.required || (m.find? (fun kv => kv.1 = f.fname)).isSome)

/-! ## The loss-configuration classes

One constructor per configuration class declared in
`src/olimp/precompensation/nn/train/config/loss_function.py`. -/

/-- The twelve loss-configuration classes of `loss_function.py`, in source
order. -/
inductive LossVariantClass where
  | Vae
  | ColorBlindnessLoss
  | MSE
  | PSNR
  | NRMSE
  | STRESS
  | CORR
  | SSIM
  | MS_SSIM
  | FSIM
  | RMS
  | CD
deriving DecidableEq

/-- The `name` discriminator literal of each loss-configuration class. -/
def tagOf : LossVariantClass → String
  | .Vae => "Vae"
  | .ColorBlindnessLoss => "ColorBlindnessLoss"
  | .MSE => "MSE"
  | .PSNR => "PSNR"
  | .NRMSE => "NRMSE"
  | .STRESS => "STRESS"
  | .CORR => "CORR"
  | .SSIM => "SSIM"
  | .MS_SSIM => "MS_SSIM"
  | .FSIM => "FSIM"
  | .RMS => "RMS"
  | .CD => "CD"

/-- Declared fields of each loss-configuration class, read off the class
bodies of `loss_function.py` (a field is required iff it has no default). -/
def lossFields : LossVariantClass → List FieldSpec
  | .Vae => [⟨"name", true, isLit "Vae"⟩]
  | .ColorBlindnessLoss =>
    [⟨"name", true, isLit "ColorBlindnessLoss"⟩,
     ⟨"type", true, isLitIn ["protan", "deutan"]⟩,
     ⟨"degree", false, isDegree⟩,
     ⟨"lambda_ssim", false, isUnitFloat⟩,
     ⟨"global_points", false, isIntVal⟩]
  | .MSE => [⟨"name", true, isLit "MSE"⟩]
  | .PSNR => [⟨"name", true, isLit "PSNR"⟩]
  | .NRMSE => [⟨"name", true, isLit "NRMSE"⟩, ⟨"invert", false, isBoolVal⟩]
  | .STRESS => [⟨"name", true, isLit "STRESS"⟩]
  | .CORR => [⟨"name", true, isLit "CORR"⟩]
  | .SSIM =>
    [⟨"name", true, isLit "SSIM"⟩,
     ⟨"kernel_size", false, isIntVal⟩,
     ⟨"kernel_sigma", false, isNumVal⟩,
     ⟨"k1", false, isNumVal⟩,
     ⟨"k2", false, isNumVal⟩]
  | .MS_SSIM =>
    [⟨"name", true, isLit "MS_SSIM"⟩,
     ⟨"kernel_size", false, isIntVal⟩,
     ⟨"kernel_sigma", false, isNumVal⟩,
     ⟨"k1", false, isNumVal⟩,
     ⟨"k2", false, isNumVal⟩]
  | .FSIM =>
    [⟨"name", true, isLit "FSIM"⟩,
     ⟨"reduction", false, isLitIn ["none", "mean", "sum"]⟩,
     ⟨"data_range", false, isNumVal⟩,
     ⟨"chromatic", false, isBoolVal⟩,
     ⟨"scales", false, isIntVal⟩,
     ⟨"orientations", false, isIntVal⟩,
     ⟨"min_length", false, isIntVal⟩,
     ⟨"mult", false, isIntVal⟩,
     ⟨"sigma_f", false, isNumVal⟩,
     ⟨"delta_theta", false, isNumVal⟩,
     ⟨"k", false, isNumVal⟩]
  | .RMS =>
    [⟨"name", true, isLit "RMS"⟩,
     ⟨"color_space", true, isLitIn ["lab", "prolab"]⟩,
     ⟨"n_pixel_neighbors", false, isIntVal⟩,
     ⟨"step", false, isIntVal⟩,
     ⟨"sigma_rate", false, isNumVal⟩]
  | .CD =>
    [⟨"name", true, isLit "CD"⟩,
     ⟨"color_space", true, isLitIn ["lab", "prolab"]⟩,
     ⟨"lightness_weight", false, isIntVal⟩]

/-- Methods defined by each loss-configuration class body in
`loss_function.py`.  Eleven of the twelve classes define a method named
`load`; `CorrLossFunction` (lines 134–142) instead defines a method spelled
`laod`, so attribute lookup of `load` on it fails. -/
def lossMethods : LossVariantClass → List String
  | .Vae => ["load"]
  | .ColorBlindnessLoss => ["load"]
  | .MSE => ["load"]
  | .PSNR => ["load"]
  | .NRMSE => ["load"]
  | .STRESS => ["load"]
  | .CORR => ["laod"]
  | .SSIM => ["load"]
  | .MS_SSIM => ["load"]
  | .FSIM => ["load"]
  | .RMS => ["load"]
  | .CD => ["load"]

/-- The members of the `LossFunction` discriminated union
(`loss_function.py`, lines 257–264), in source order:
`VaeLossFunction | ColorBlindnessLossFunction | MultiScaleSSIMLossFunction
| RMSLossFunction | CDLossFunction`. -/
def unionVariants : List LossVariantClass :=
  [.Vae, .ColorBlindnessLoss, .MS_SSIM, .RMS, .CD]

/-- Pydantic validation of the `LossFunction` discriminated union
(`Field(..., discriminator="name")`): read the `name` key, find the union
member whose `name` literal matches it exactly, and validate the mapping
against that member's fields; an unrecognized tag fails before anything
else runs. -/
def parseLossFunction (m : List (String × PyVal)) :
    Except String LossVariantClass :=
  match m.find? (fun kv => kv.1 = "name") with
  | some kv =>
    match kv.2 with
    | .str tag =>
      match unionVariants.find? (fun v => tagOf v = tag) with
      | some v =>
        if validateFields (lossFields v) m then .ok v
        else .error "ValidationError: invalid fields"
      | Option.none =>
        .error ("ValidationError: no discriminator match for " ++ tag)
    | _ => .error "ValidationError: discriminator must be a string"
  | Option.none => .error "ValidationError: missing discriminator"

/-! ## All strict configuration classes of the subsystem

Loss variants (above), model variants (`model.py`) and the distortion
variant (`distortion.py`) — all subclasses of `StrictModel`. -/

/-- A configuration class: its Python class name and declared fields. -/
structure ConfigClass where
  cname : String
  cfields : List FieldSpec

/-- Fields shared by the simple model configs (`name` literal plus optional
`path`). -/
def modelNamePath (tag : String) : List FieldSpec :=
  [⟨"name", true, isLit tag⟩, ⟨"path", false, isStrOrNone⟩]

/-- Every strict configuration record type of the subsystem: the twelve
loss classes, the seven model classes of `model.py`, and
`RefractionDistortionConfig` of `distortion.py`. -/
def allConfigClasses : List ConfigClass :=
  [⟨"VaeLossFunction", lossFields .Vae⟩,
   ⟨"ColorBlindnessLossFunction", lossFields .ColorBlindnessLoss⟩,
   ⟨"MSELossFucntion", lossFields .MSE⟩,
   ⟨"PSNRLossFunction", lossFields .PSNR⟩,
   ⟨"NRMSELossFuction", lossFields .NRMSE⟩,
   ⟨"StressLossFunction", lossFields .STRESS⟩,
   ⟨"CorrLossFunction", lossFields .CORR⟩,
   ⟨"SSIMLossFunction", lossFields .SSIM⟩,
   ⟨"MultiScaleSSIMLossFunction", lossFields .MS_SSIM⟩,
   ⟨"FSIMLossFunction", lossFields .FSIM⟩,
   ⟨"RMSLossFunction", lossFields .RMS⟩,
   ⟨"CDLossFunction", lossFields .CD⟩,
   ⟨"VDSR", modelNamePath "vdsr"⟩,
   ⟨"VAE", modelNamePath "vae"⟩,
   ⟨"CVAE", modelNamePath "cvae"⟩,
   ⟨"UNET_b0", modelNamePath "unet_b0"⟩,
   ⟨"PrecompensationUSRNet",
     modelNamePath "precompensationusrnet" ++
     [⟨"n_iter", false, isIntVal⟩, ⟨"h_nc", false, isIntVal⟩,
      ⟨"in_nc", false, isIntVal⟩, ⟨"out_nc", false, isIntVal⟩,
      ⟨"nc", false, isIntList⟩, ⟨"nb", false, isIntVal⟩]⟩,
   ⟨"PrecompensationDWDN",
     [⟨"name", true, isLit "precompensationdwdn"⟩,
      ⟨"n_levels", false, isIntVal⟩, ⟨"path", false, isStrOrNone⟩]⟩,
   ⟨"Generator_transformer_pathch4_844_48_3_nouplayer_server5",
     modelNamePath "Generator_transformer_pathch4_844_48_3_nouplayer_server5"⟩,
   ⟨"RefractionDistortionConfig",
     [⟨"name", true, isLit "refraction_datasets"⟩,
      ⟨"psf", true, fun _ => true⟩]⟩]

/-! ## Tensors and the bound-loss protocol

For the loss-binding layer a tensor is a flat list of exact rationals.  A
`Distortion` is the external-collaborator type of `.....simulate`: a class
that is constructed from one tensor (`distortion(d_input)`) and then called
on the model output tuple (`(*model_output)`), producing a tensor. -/

/-- Tensor, modelled as a flat list of exact rationals. -/
abbrev Tensor := List ℚ

/-- Distortion handle: constructed from one datum tensor, then applied to
the model output tuple. -/
abbrev Distortion := Tensor → List Tensor → Tensor

/-- Elementwise `Tensor.clip(min=0.0, max=1.0)`. -/
def clip01 (t : Tensor) : Tensor :=
  t.map (fun v => min (max v 0) 1)

/-- Embedding of the closure returned by `_create_simple_loss(loss)`
(`loss_function.py`, lines 9–26), called as
`f(model_output, datums, distortions)`:
`zip(distortions, datums[1:], strict=True)` raises when the two lengths
differ; each distortion is constructed from the paired datum, applied to
the model output, and the result clipped to `[0, 1]`; then
`original_image = datums[0]` is read (an `IndexError` on empty `datums`),
`assert len(distorted) == 1` is checked, and `loss(distorted[0],
original_image)` is returned.  Python exceptions become `Except.error`. -/
def createSimpleLoss (loss : Tensor → Tensor → ℚ)
    (model_output : List Tensor) (datums : List Tensor)
    (distortions : List Distortion) : Except String ℚ :=
  if distortions.length ≠ datums.tail.length then
    .error "ValueError: zip() arguments have different lengths (strict=True)"
  else
    let distorted : List Tensor :=
      List.zipWith (fun d dInput => clip01 (d dInput model_output))
        distortions datums.tail
    match datums with
    | [] => .error "IndexError: datums[0]"
    | original_image :: _ =>
      if distorted.length = 1 then
        .ok (loss (distorted.headD []) original_image)
      else
        .error "AssertionError: len(distorted) == 1"

/-- Embedding of `vae_loss` (`src/olimp/evaluation/loss/__init__.py`,
lines 11–16): `L1 = l1_loss(pred, target, reduction="sum")` plus
`KLD = -0.5 * sum(1 + logvar - mu**2 - exp(logvar))`.  The transcendental
`torch.exp` is passed in as `expQ`. -/
def vae_loss (expQ : ℚ → ℚ) (pred target mu logvar : Tensor) : ℚ :=
  (List.zipWith (fun a b => |a - b|) pred target).sum +
    -(1 / 2) * (List.zipWith (fun m lv => 1 + lv - m ^ 2 - expQ lv)
      mu logvar).sum

/-- Embedding of `VaeLossFunction.load(model)` (`loss_function.py`,
lines 32–52).  The model instance is represented by the runtime type name
`type(model).__name__` and its display string `str(model)` (used in the
assertion message).  The assert fires at `load` time, before the closure
`f` is built; `f` itself asserts exactly one distortion, destructures
`model_output` as `precompensated, *args` (here `args` must be the
`mu, logvar` pair that `vae_loss` expects), simulates
`distortions[0](datums[1])(precompensated)` and returns
`vae_loss(retinal_precompensated, datums[0], *args)`. -/
def vaeLossFunctionLoad (expQ : ℚ → ℚ) (typeName modelRepr : String) :
    Except String
      (List Tensor → List Tensor → List Distortion → Except String ℚ) :=
  if typeName = "VAE" ∨ typeName = "CVAE" then
    .ok (fun model_output datums distortions =>
      if distortions.length = 1 then
        match model_output, datums with
        | precompensated :: args, d0 :: d1 :: _ =>
          match args with
          | [mu, logvar] =>
            .ok (vae_loss expQ
              ((distortions.headD (fun _ _ => [])) d1 [precompensated])
              d0 mu logvar)
          | _ => .error "TypeError: vae_loss() argument count"
        | [], _ => .error "ValueError: not enough values to unpack"
        | _, _ => .error "IndexError: datums"
      else .error "AssertionError: Not implemented")
  else
    .error ("Vae loss only work with (C)Vae model, not " ++ modelRepr)

/-! ## NRMSE (`src/olimp/evaluation/loss/nrmse.py`)

`NormalizedRootMSE` is constructed with a normalization kind and an invert
flag; `forward(x, y)` computes `mse = mean((x - y)**2)`, the denominator
from `x` by the chosen normalization, raises `ValueError` when the
denominator is exactly zero, and otherwise returns `sqrt(mse) / denom`
(or one minus that when `invert`).  `torch.sqrt` is passed in as
`sqrtQ`. -/

/-- Mean of a list of rationals (`torch.mean` of a flat tensor). -/
def meanList (l : List ℚ) : ℚ :=
  l.sum / l.length

/-- Maximum entry (`Tensor.max()` of a nonempty flat tensor). -/
def maxList (l : List ℚ) : ℚ :=
  l.foldl max (l.headD 0)

/-- Minimum entry (`Tensor.min()` of a nonempty flat tensor). -/
def minList (l : List ℚ) : ℚ :=
  l.foldl min (l.headD 0)

/-- The three normalization kinds of `NormalizedRootMSE`. -/
inductive Normalization where
  | euclidean
  | minMax
  | mean
deriving DecidableEq

/-- Embedding of the `_euclidean` / `_min_max` / `_mean` denominator
functions of `NormalizedRootMSE`: RMS of `x`, max minus min of `x`, or
mean of `x`. -/
def denomFunction (sqrtQ : ℚ → ℚ) : Normalization → Tensor → ℚ
  | .euclidean, x => sqrtQ (meanList (x.map (fun v => v ^ 2)))
  | .minMax, x => maxList x - minList x
  | .mean, x => meanList x

/-- Embedding of `NormalizedRootMSE.forward(x, y)` (`nrmse.py`,
lines 47–70). -/
def nrmseForward (sqrtQ : ℚ → ℚ) (normalization : Normalization)
    (invert : Bool) (x y : Tensor) : Except String ℚ :=
  let mse_value := meanList (List.zipWith (fun a b => (a - b) ^ 2) x y)
  let denom := denomFunction sqrtQ normalization x
  if denom = 0 then
    .error "Denominator for normalization is zero."
  else
    .ok (if invert then 1 - sqrtQ mse_value / denom
         else sqrtQ mse_value / denom)

/-! ## SSIM (`src/olimp/evaluation/loss/ssim.py`)

A 4-d image batch is a function of `(batch, channel, height, width)`.  The
Gaussian kernel is a captured tensor computed once in `__init__` from
`kernel_size` and `sigma` (via `torch.exp`) and expanded to all three
channel groups; since `_ssim` only reads the captured tensor, the
embedding takes the two-dimensional kernel as a parameter. -/

/-- 4-d image batch `(batch, channel, height, width) ↦ value`. -/
abbrev Img4 := ℕ → ℕ → ℕ → ℕ → ℚ

/-- Zero-padded read of an `H × W` channel plane at signed coordinates,
as `F.conv2d` with `padding=kernel_size // 2` sees the input. -/
def paddedAt (H W : ℕ) (x : Img4) (b c : ℕ) (i j : ℤ) : ℚ :=
  if 0 ≤ i ∧ i < H ∧ 0 ≤ j ∧ j < W then x b c i.toNat j.toNat else 0

/-- Embedding of `F.conv2d(x, kernel, padding=pad, groups=3)` where every
channel group carries the same two-dimensional `ks × ks` kernel (the
source expands one 2-d kernel to shape `(3, 1, ks, ks)`). -/
def conv2d (kernel : ℕ → ℕ → ℚ) (ks pad H W : ℕ) (x : Img4) : Img4 :=
  fun b c i j =>
    ∑ u ∈ Finset.range ks, ∑ v ∈ Finset.range ks,
      kernel u v * paddedAt H W x b c ((i : ℤ) + u - pad) ((j : ℤ) + v - pad)

/-- Elementwise product of two image batches (`x * y`). -/
def mulI (x y : Img4) : Img4 :=
  fun b c i j => x b c i j * y b c i j

/-- Stabilizing constant `c1 = 0.01 ** 2` of `SSIMLoss._ssim`. -/
def ssimC1 : ℚ := (1 / 100) ^ 2

/-- Stabilizing constant `c2 = 0.03 ** 2` of `SSIMLoss._ssim`. -/
def ssimC2 : ℚ := (3 / 100) ^ 2

/-- The `1e-12` added to the denominator in `SSIMLoss._ssim`. -/
def ssimEps : ℚ := 1 / 10 ^ 12

/-- Embedding of `SSIMLoss._ssim(x, y)` (`ssim.py`, lines 37–74): Gaussian
means, variances and covariance by grouped convolution, then
`((2*ux*uy + c1) * (2*vxy + c2)) / ((ux**2 + uy**2 + c1) * (vx + vy + c2)
+ 1e-12)` pointwise. -/
def ssimMap (kernel : ℕ → ℕ → ℚ) (ks H W : ℕ) (x y : Img4) : Img4 :=
  let pad := ks / 2
  let ux := conv2d kernel ks pad H W x
  let uy := conv2d kernel ks pad H W y
  let uxx := conv2d kernel ks pad H W (mulI x x)
  let uyy := conv2d kernel ks pad H W (mulI y y)
  let uxy := conv2d kernel ks pad H W (mulI x y)
  fun b c i j =>
    let vx := uxx b c i j - ux b c i j * ux b c i j
    let vy := uyy b c i j - uy b c i j * uy b c i j
    let vxy := uxy b c i j - ux b c i j * uy b c i j
    ((2 * ux b c i j * uy b c i j + ssimC1) * (2 * vxy + ssimC2)) /
      ((ux b c i j ^ 2 + uy b c i j ^ 2 + ssimC1) * (vx + vy + ssimC2) +
        ssimEps)

/-- Spatial size of the `F.conv2d` output: `H + 2*(ks / 2) + 1 - ks`. -/
def convOutDim (ks H : ℕ) : ℕ :=
  H + 2 * (ks / 2) + 1 - ks

/-- Mean of an image batch over a `(B, C, H, W)` shape (`Tensor.mean()`). -/
def mean4 (B C H W : ℕ) (f : Img4) : ℚ :=
  (∑ b ∈ Finset.range B, ∑ c ∈ Finset.range C,
    ∑ i ∈ Finset.range H, ∑ j ∈ Finset.range W, f b c i j) /
    (B * C * H * W)

/-- Embedding of `SSIMLoss.forward(x, y, as_loss=True)` on a `(B, C, H, W)`
batch: `1 - ssim_map.mean()` where the map has spatial size
`convOutDim ks H × convOutDim ks W`.  With `as_loss=False`, `forward`
returns `ssimMap` itself. -/
def ssimForwardLoss (kernel : ℕ → ℕ → ℚ) (ks B C H W : ℕ) (x y : Img4) :
    ℚ :=
  1 - mean4 B C (convOutDim ks H) (convOutDim ks W) (ssimMap kernel ks H W x y)

/-- Keyword parameters accepted by `SSIMLoss.__init__` (`ssim.py`,
line 10): `kernel_size` and `sigma` only — in particular there is no
`reduction` parameter. -/
def ssimLossInitKeywords : List String := ["kernel_size", "sigma"]

/-- The all-zero image batch. -/
def zeroImg : Img4 := fun _ _ _ _ => 0

/-! ## RMS (`src/olimp/evaluation/loss/__init__.py`, lines 27–170)

A single image inside `RMS_map` is channel-last `(h, w, c) ↦ value`.  The
opaque numeric primitives are parameters: `hashQ` models Python's `hash`
of the float `mean(img1 + img2).item()`; `gauss seed p` models the `p`-th
standard-normal draw of `torch.Generator().manual_seed(seed)`, so the
element of `torch.normal(mean, sigma, generator=rng)` at flat position `p`
is `mean + sigma * gauss seed p`; `sqrtQ` models `torch.sqrt`; `toLab` and
`toProlab` model `srgb2lab` / `srgb2prolab` (whose `..cs` color-space
modules are external to this subsystem's sources and whose values none of
the claims depend on). -/

/-- Channel-last image `(h, w, c) ↦ value`, as seen by `RMS_map` after
`permute(1, 2, 0)`. -/
abbrev ImgHWC := ℕ → ℕ → ℕ → ℚ

/-- The color-space choice of `RMS` and `CD`. -/
inductive RMSColorSpace where
  | lab
  | prolab
deriving DecidableEq

/-- Mean of `img1 + img2` over an `H × W × 3` channel-last pair, the value
whose Python `hash` seeds the local generator. -/
def meanImgSum (H W : ℕ) (img1 img2 : ImgHWC) : ℚ :=
  (∑ h ∈ Finset.range H, ∑ w ∈ Finset.range W, ∑ c ∈ Finset.range 3,
    (img1 h w c + img2 h w c)) / (H * W * 3)

/-- Embedding of `generate_random_neighbors` (`loss/__init__.py`,
lines 27–57): the seed is `hash(mean(img1 + img2).item())`, a fresh local
generator is created from it, and the `(dst_h, dst_w, 2, n)` neighbor
tensor is drawn with per-element mean `i*step` (axis 0) or `j*step`
(axis 1) and standard deviation `height*sigma_rate` or `width*sigma_rate`,
then rounded and clamped below by 0 (`.round().clamp(min=0).long()`). -/
def generate_random_neighbors (hashQ : ℚ → ℤ) (gauss : ℤ → ℕ → ℚ)
    (H W : ℕ) (img1 img2 : ImgHWC) (n_pixel_neighbors step : ℕ)
    (sigma_rate : ℚ) : ℕ → ℕ → ℕ → ℕ → ℤ :=
  let dst_width := W / step
  let seed := hashQ (meanImgSum H W img1 img2)
  fun i j k l =>
    let meanV : ℚ := if k = 0 then ((i * step : ℕ) : ℚ) else ((j * step : ℕ) : ℚ)
    let sigmaV : ℚ := if k = 0 then (H : ℚ) * sigma_rate else (W : ℚ) * sigma_rate
    max 0 (round (meanV + sigmaV *
      gauss seed (((i * dst_width + j) * 2 + k) * n_pixel_neighbors + l)))

/-- Embedding of `pixel_contrasts(image, pixel, neighbors)`
(`loss/__init__.py`, lines 81–87): Euclidean norm, over the three channels,
of the difference between the center pixel and each neighbor pixel. -/
def pixel_contrasts (sqrtQ : ℚ → ℚ) (image : ImgHWC) (py px : ℕ)
    (neighbors : List (ℤ × ℤ)) : List ℚ :=
  neighbors.map (fun yx =>
    sqrtQ (∑ c ∈ Finset.range 3,
      (image py px c - image yx.1.toNat yx.2.toNat c) ^ 2))

/-- Embedding of `RMS_map` (`loss/__init__.py`, lines 90–136) as the
`(dst_height, dst_width)` cell map: neighbors are generated from the
content-derived seed, both images move to the chosen perceptual color
space, and each cell keeps only the in-bounds neighbor columns, takes both
images' contrasts at the cell's center pixel, normalizes their differences
by 160 and reports the root of the mean square. -/
def RMS_map (hashQ : ℚ → ℤ) (gauss : ℤ → ℕ → ℚ) (sqrtQ : ℚ → ℚ)
    (toLab toProlab : ImgHWC → ImgHWC) (color_space : RMSColorSpace)
    (H W : ℕ) (img1 img2 : ImgHWC) (n_pixel_neighbors step : ℕ)
    (sigma_rate : ℚ) : ℕ → ℕ → ℚ :=
  let neighbors := generate_random_neighbors hashQ gauss H W img1 img2
    n_pixel_neighbors step sigma_rate
  let lab1 := match color_space with
    | .lab => toLab img1
    | .prolab => toProlab img1
  let lab2 := match color_space with
    | .lab => toLab img2
    | .prolab => toProlab img2
  fun i j =>
    let filtered : List (ℤ × ℤ) :=
      (List.range n_pixel_neighbors).filterMap (fun l =>
        let y := neighbors i j 0 l
        let x := neighbors i j 1 l
        if 0 ≤ y ∧ y < H ∧ 0 ≤ x ∧ x < W then some (y, x) else Option.none)
    let img1_contrasts := pixel_contrasts sqrtQ lab1 (i * step) (j * step)
      filtered
    let img2_contrasts := pixel_contrasts sqrtQ lab2 (i * step) (j * step)
      filtered
    let normalized := List.zipWith (fun a b => (a - b) / 160)
      img1_contrasts img2_contrasts
    sqrtQ (meanList (normalized.map (fun v => v ^ 2)))

/-- Mean over a `dh × dw` grid (`torch.mean` of the `RMS_map` result). -/
def meanGrid (dh dw : ℕ) (f : ℕ → ℕ → ℚ) : ℚ :=
  (∑ i ∈ Finset.range dh, ∑ j ∈ Finset.range dw, f i j) / (dh * dw)

/-- Shaped tensor for the `RMS` entry point: an explicit shape plus the
values addressed by a coordinate list. -/
structure Tens where
  shape : List ℕ
  data : List ℕ → ℚ

/-- Number of axes, `Tensor.dim()`. -/
def Tens.dim (t : Tens) : ℕ := t.shape.length

/-- Leading-axis insertion, `Tensor.unsqueeze(0)`. -/
def Tens.unsqueeze0 (t : Tens) : Tens :=
  ⟨1 :: t.shape, fun idx => t.data idx.tail⟩

/-- The batch promotion performed by `RMS`: a 3-d tensor becomes a batch
of one via `unsqueeze(0)`; a 4-d tensor is untouched. -/
def promote (t : Tens) : Tens :=
  if t.dim = 3 then t.unsqueeze0 else t

/-- Embedding of the body of `RMS` (`loss/__init__.py`, lines 139–170):
assert each input has 3 or 4 axes, promote 3-d inputs to a singleton
batch, assert the channel axis is 3, then score every batch element as the
mean of its `RMS_map` over the `(H/step, W/step)` cell grid of the
`permute(1, 2, 0)` channel-last slices. -/
def RMSpure (hashQ : ℚ → ℤ) (gauss : ℤ → ℕ → ℚ) (sqrtQ : ℚ → ℚ)
    (toLab toProlab : ImgHWC → ImgHWC) (color_space : RMSColorSpace)
    (n_pixel_neighbors step : ℕ) (sigma_rate : ℚ) (img1 img2 : Tens) :
    Except String (List ℚ) :=
  if ¬(img1.dim = 3 ∨ img1.dim = 4) then
    .error "AssertionError: img1.dim() in (3, 4)"
  else if ¬(img2.dim = 3 ∨ img2.dim = 4) then
    .error "AssertionError: img2.dim() in (3, 4)"
  else
    let i1 := promote img1
    let i2 := promote img2
    if i1.shape.getD 1 0 ≠ 3 then
      .error "AssertionError: img1.shape[1] == 3"
    else if i2.shape.getD 1 0 ≠ 3 then
      .error "AssertionError: img2.shape[1] == 3"
    else
      let B := i1.shape.headD 0
      let H := i1.shape.getD 2 0
      let W := i1.shape.getD 3 0
      .ok ((List.range B).map (fun idx =>
        meanGrid (H / step) (W / step)
          (RMS_map hashQ gauss sqrtQ toLab toProlab color_space H W
            (fun h w c => i1.data [idx, c, h, w])
            (fun h w c => i2.data [idx, c, h, w])
            n_pixel_neighbors step sigma_rate)))

/-- The `RMS` metric as invoked inside a process whose ambient/global RNG
state has type `G`: the source's only stochastic call,
`torch.normal(..., generator=rng)`, uses a local generator freshly seeded
from `hash(mean(img1 + img2).item())`, so the global state is neither read
nor advanced — the call returns `RMSpure` and hands the state back
untouched. -/
def RMS {G : Type} (hashQ : ℚ → ℤ) (gauss : ℤ → ℕ → ℚ) (sqrtQ : ℚ → ℚ)
    (toLab toProlab : ImgHWC → ImgHWC) (color_space : RMSColorSpace)
    (n_pixel_neighbors step : ℕ) (sigma_rate : ℚ) (img1 img2 : Tens)
    (g : G) : Except String (List ℚ) × G :=
  (RMSpure hashQ gauss sqrtQ toLab toProlab color_space n_pixel_neighbors
    step sigma_rate img1 img2, g)

/-! ## Per-variant bound callables of the non-VAE `load` methods

`loss_function.py` builds the bound callable of each non-VAE variant in
one of two shapes: nine classes (`MSE`, `PSNR`, `NRMSE`, `STRESS`,
`SSIM`, `MS_SSIM`, `FSIM`, `RMS`, `CD`) — and `CORR`, through its
misspelled `laod` — return `_create_simple_loss(metric)`, a
three-argument callable `f(model_output, datums, distortions)`, while
`ColorBlindnessLossFunction.load` (lines 66–85) builds its own
two-argument closure `f(model_output, datums)` that accepts no
`distortions` parameter at all, so invoking it under the three-argument
protocol raises `TypeError`. -/

/-- The two closure shapes returned by the non-VAE `load` methods: the
three-argument `_create_simple_loss` protocol callable, or the
two-argument `ColorBlindnessLoss` callable (which, having no
`distortions` parameter, cannot be called with three arguments). -/
inductive BoundCallable where
  | withDistortions
      (f : List Tensor → List Tensor → List Distortion → Except String ℚ)
  | withoutDistortions
      (f : List Tens → List Tens → Except String ℚ)

/-- Embedding of the closure built by `ColorBlindnessLossFunction.load`
(`loss_function.py`, lines 78–83): `(image,) = datums` (a `ValueError`
unless `datums` has exactly one entry), `assert image.ndim == 4`,
`(precompensated,) = model_output`, `assert precompensated.ndim == 4`,
then `cbl(image, precompensated)` — no distortion pairing and no
clipping anywhere. -/
def colorBlindnessBound (cbl : Tens → Tens → ℚ)
    (model_output datums : List Tens) : Except String ℚ :=
  match datums with
  | [image] =>
    if image.dim ≠ 4 then .error "AssertionError: image.ndim"
    else
      match model_output with
      | [precompensated] =>
        if precompensated.dim ≠ 4 then
          .error "AssertionError: precompensated.ndim"
        else .ok (cbl image precompensated)
      | _ => .error "ValueError: unpacking model_output"
  | _ => .error "ValueError: unpacking datums"

/-- The bound callable each non-VAE loss variant's load method builds,
read off the `load` bodies of `loss_function.py` (for `CORR`, off the
misspelled `laod`, the only binding method its class defines): every
variant except `ColorBlindnessLoss` returns
`_create_simple_loss(metric)`; `ColorBlindnessLoss` returns its own
two-argument closure over its `ColorBlindnessLoss` metric instance.
`Vae` is not a non-VAE variant and is mapped to `none`. -/
def nonVaeBound (v : LossVariantClass) (metric : Tensor → Tensor → ℚ)
    (cblMetric : Tens → Tens → ℚ) : Option BoundCallable :=
  match v with
  | .Vae => Option.none
  | .ColorBlindnessLoss =>
    some (.withoutDistortions (colorBlindnessBound cblMetric))
  | _ => some (.withDistortions (createSimpleLoss metric))

/-! ## Shared helper lemmas -/

/-- A list whose predicate fails on a member fails `List.all`. -/
theorem all_eq_false_of_mem {α : Type} {p : α → Bool} {l : List α} {x : α}
    (hx : x ∈ l) (hp : p x = false) : l.all p = false := by
  cases h : l.all p with
  | false => rfl
  | true =>
    rw [List.all_eq_true] at h
    rw [h x hx] at hp
    exact absurd hp (by simp)

/-! ## Claims -/

/-- C1 (counterexample): the configuration-schema table lists `MSE`, but a
record tagged `name = "MSE"` is rejected by `LossFunction` validation,
because `MSELossFucntion` is not among the members of the discriminated
union at lines 257–264 and tag dispatch fails. -/
theorem claim1_counterexample :
    parseLossFunction [("name", PyVal.str "MSE")] =
      Except.error "ValidationError: no discriminator match for MSE" := by
  rfl

/-- C1 (amended): of the twelve metric names in the configuration-schema
table, exactly the five union members `Vae`, `ColorBlindnessLoss`,
`MS_SSIM`, `RMS` and `CD` are accepted by `LossFunction` validation when
their required fields are supplied; the seven remaining names (`MSE`,
`PSNR`, `NRMSE`, `STRESS`, `CORR`, `SSIM`, `FSIM`) have configuration
classes in the file but are not members of the union, so their tags fail
dispatch. -/
theorem claim1_amended :
    (parseLossFunction [("name", PyVal.str "Vae")]).isOk = true ∧
    (parseLossFunction [("name", PyVal.str "ColorBlindnessLoss"),
      ("type", PyVal.str "protan")]).isOk = true ∧
    (parseLossFunction [("name", PyVal.str "MS_SSIM")]).isOk = true ∧
    (parseLossFunction [("name", PyVal.str "RMS"),
      ("color_space", PyVal.str "lab")]).isOk = true ∧
    (parseLossFunction [("name", PyVal.str "CD"),
      ("color_space", PyVal.str "lab")]).isOk = true ∧
    (parseLossFunction [("name", PyVal.str "MSE")]).isOk = false ∧
    (parseLossFunction [("name", PyVal.str "PSNR")]).isOk = false ∧
    (parseLossFunction [("name", PyVal.str "NRMSE")]).isOk = false ∧
    (parseLossFunction [("name", PyVal.str "STRESS")]).isOk = false ∧
    (parseLossFunction [("name", PyVal.str "CORR")]).isOk = false ∧
    (parseLossFunction [("name", PyVal.str "SSIM")]).isOk = false ∧
    (parseLossFunction [("name", PyVal.str "FSIM")]).isOk = false := by
  decide

/-- C3 (code bug): the spec requires every loss-configuration variant to
provide a `load(model)` method, but `CorrLossFunction` is the one class
whose method list is `["laod"]` — a misspelling of `load` — so attribute
lookup of `load` on a `CORR` configuration fails while it succeeds on
every other variant. -/
theorem claim3_code_bug :
    (lossMethods LossVariantClass.CORR).contains "load" = false ∧
    (lossMethods LossVariantClass.CORR).contains "laod" = true ∧
    (∀ v : LossVariantClass,
      lossMethods v =
        if v = LossVariantClass.CORR then ["laod"] else ["load"]) := by
  refine ⟨by decide, by decide, fun v => ?_⟩
  cases v <;> rfl

/-- C4: loading a `Vae` loss configuration against a model whose runtime
type name is neither `"VAE"` nor `"CVAE"` fails at `load()` time with the
descriptive assertion message, before any bound callable exists; loading
against a `VAE` or `CVAE` instance succeeds. -/
theorem claim4_vae_load_check (expQ : ℚ → ℚ) (typeName modelRepr : String) :
    ((typeName = "VAE" ∨ typeName = "CVAE") →
      (vaeLossFunctionLoad expQ typeName modelRepr).isOk = true) ∧
    (typeName ≠ "VAE" → typeName ≠ "CVAE" →
      vaeLossFunctionLoad expQ typeName modelRepr =
        Except.error
          ("Vae loss only work with (C)Vae model, not " ++ modelRepr)) := by
  constructor
  · intro h
    unfold vaeLossFunctionLoad
    rw [if_pos h]
    rfl
  · intro h1 h2
    unfold vaeLossFunctionLoad
    rw [if_neg (by simp [h1, h2])]

/-- C4 witness: loading against a `VAE` model succeeds and loading against
a `UNet` model fails with the descriptive message. -/
theorem claim4_witness :
    (vaeLossFunctionLoad (fun q => q) "VAE" "VAE()").isOk = true ∧
    vaeLossFunctionLoad (fun q => q) "UNet" "UNet()" =
      Except.error "Vae loss only work with (C)Vae model, not UNet()" := by
  constructor
  · exact (claim4_vae_load_check (fun q => q) "VAE" "VAE()").1 (Or.inl rfl)
  · have h := (claim4_vae_load_check (fun q => q) "UNet" "UNet()").2
      (by decide) (by decide)
    rw [h]
    rfl

/-- C6: for every strict configuration class of the subsystem (the loss,
model and distortion variants all extend `StrictModel`, whose pydantic
config is `extra = "forbid"`), validating a mapping that contains any key
not declared as a field of that class fails. -/
theorem claim6_extra_keys_rejected (c : ConfigClass)
    (_hc : c ∈ allConfigClasses) (m : List (String × PyVal)) (k : String)
    (v : PyVal) (hmem : (k, v) ∈ m)
    (hk : c.cfields.find? (fun f => f.fname = k) = Option.none) :
    validateFields c.cfields m = false := by
  unfold validateFields
  have hfail : (fun kv : String × PyVal =>
      match c.cfields.find? (fun f => f.fname = kv.1) with
      | some f => f.ok kv.2
      | Option.none => false) (k, v) = false := by
    simp only [hk]
  rw [all_eq_false_of_mem hmem hfail, Bool.false_and]

/-- C6 witness: `MSELossFucntion` rejects the mapping
`{"name": "MSE", "foo": 1}` because `foo` is not a declared field. -/
theorem claim6_witness :
    validateFields (lossFields LossVariantClass.MSE)
      [("name", PyVal.str "MSE"), ("foo", PyVal.int 1)] = false := by
  have hc : (⟨"MSELossFucntion", lossFields LossVariantClass.MSE⟩ :
      ConfigClass) ∈ allConfigClasses := by
    unfold allConfigClasses
    exact List.Mem.tail _ (List.Mem.tail _ (List.Mem.head _))
  exact claim6_extra_keys_rejected
    ⟨"MSELossFucntion", lossFields LossVariantClass.MSE⟩ hc
    [("name", PyVal.str "MSE"), ("foo", PyVal.int 1)] "foo" (PyVal.int 1)
    (by decide) rfl

/-- C2 (counterexample): with two distortions paired against two later
datums — lengths equal, so the spec's protocol promises the wrapped metric
value — the closure built by `_create_simple_loss` nevertheless fails its
`assert len(distorted) == 1`. -/
theorem claim2_counterexample :
    ([fun dI _ => dI, fun dI _ => dI] : List Distortion).length =
      ([[0], [0], [0]] : List Tensor).tail.length ∧
    createSimpleLoss (fun a b => a.sum + b.sum) [[0]] [[0], [0], [0]]
      [fun dI _ => dI, fun dI _ => dI] =
      Except.error "AssertionError: len(distorted) == 1" := by
  exact ⟨rfl, rfl⟩

/-- C2 (amended): every non-VAE loss variant except `ColorBlindnessLoss`
binds (through `load`, or `laod` for `CORR`) to the three-argument
`_create_simple_loss` closure, which fails with an explicit error
whenever `len(distortions)` differs from `len(datums) - 1` (never
truncating silently), additionally requires exactly one distortion, and
in that case applies the distortion to `datums[1]`, clips the simulated
result to `[0, 1]` and returns the wrapped metric applied to the clipped
result and `datums[0]`; `ColorBlindnessLossFunction.load` instead binds
to a two-argument closure with no `distortions` parameter (a `TypeError`
under the three-argument protocol) that pairs no distortions and clips
nothing. -/
theorem claim2_amended :
    (∀ v : LossVariantClass, v ≠ LossVariantClass.Vae →
      v ≠ LossVariantClass.ColorBlindnessLoss →
      ∀ (metric : Tensor → Tensor → ℚ) (cblMetric : Tens → Tens → ℚ),
        nonVaeBound v metric cblMetric =
          some (BoundCallable.withDistortions (createSimpleLoss metric))) ∧
    (∀ (metric : Tensor → Tensor → ℚ) (cblMetric : Tens → Tens → ℚ),
      nonVaeBound LossVariantClass.ColorBlindnessLoss metric cblMetric =
        some (BoundCallable.withoutDistortions
          (colorBlindnessBound cblMetric))) ∧
    (∀ (loss : Tensor → Tensor → ℚ) (model_output datums : List Tensor)
      (distortions : List Distortion),
      (distortions.length ≠ datums.tail.length →
        createSimpleLoss loss model_output datums distortions =
          Except.error
            "ValueError: zip() arguments have different lengths (strict=True)") ∧
      (∀ (d : Distortion) (t0 t1 : Tensor), distortions = [d] →
        datums = [t0, t1] →
        createSimpleLoss loss model_output datums distortions =
          Except.ok (loss (clip01 (d t1 model_output)) t0))) := by
  refine ⟨?_, fun metric cblMetric => rfl, ?_⟩
  · intro v h1 h2 metric cblMetric
    cases v
    · exact absurd rfl h1
    · exact absurd rfl h2
    all_goals rfl
  · intro loss model_output datums distortions
    constructor
    · intro h
      unfold createSimpleLoss
      rw [if_pos h]
    · intro d t0 t1 h1 h2
      subst h1
      subst h2
      rfl

/-- C2 witness: the `MSE` variant binds to the `_create_simple_loss`
closure; with one distortion and two datums that callable returns the
metric of the clipped simulated image against `datums[0]`, and with two
distortions and one datum the length mismatch fails. -/
theorem claim2_witness :
    nonVaeBound LossVariantClass.MSE (fun a _ => a.sum) (fun _ _ => 0) =
      some (BoundCallable.withDistortions
        (createSimpleLoss (fun a _ => a.sum))) ∧
    createSimpleLoss (fun a _ => a.sum) [[1]] [[5], [7]]
      [fun dI _ => dI] = Except.ok 1 ∧
    createSimpleLoss (fun a _ => a.sum) [[1]] [[5]]
      [fun dI _ => dI, fun dI _ => dI] =
      Except.error
        "ValueError: zip() arguments have different lengths (strict=True)" := by
  refine ⟨claim2_amended.1 LossVariantClass.MSE (by decide) (by decide)
    (fun a _ => a.sum) (fun _ _ => 0), ?_, ?_⟩
  · have h := (claim2_amended.2.2 (fun a _ => a.sum) [[1]] [[5], [7]]
      [fun dI _ => dI]).2 (fun dI _ => dI) [5] [7] rfl rfl
    rw [h]
    norm_num [clip01]
  · exact (claim2_amended.2.2 (fun a _ => a.sum) [[1]] [[5]]
      [fun dI _ => dI, fun dI _ => dI]).1 (by decide)

/-- C5: `NormalizedRootMSE.forward` raises exactly when the normalization
denominator computed from the reference `x` is zero; otherwise it returns
`sqrt(mean((x - y)**2))` divided by that denominator (one minus that when
`invert`), so no division by zero ever happens. -/
theorem claim5_nrmse_degenerate (sqrtQ : ℚ → ℚ) (norm : Normalization)
    (invert : Bool) (x y : Tensor) (_hlen : x.length = y.length) :
    ((∃ e, nrmseForward sqrtQ norm invert x y = Except.error e) ↔
      denomFunction sqrtQ norm x = 0) ∧
    (denomFunction sqrtQ norm x ≠ 0 →
      nrmseForward sqrtQ norm invert x y =
        Except.ok
          (if invert then
            1 - sqrtQ (meanList (List.zipWith (fun a b => (a - b) ^ 2) x y))
              / denomFunction sqrtQ norm x
          else
            sqrtQ (meanList (List.zipWith (fun a b => (a - b) ^ 2) x y))
              / denomFunction sqrtQ norm x)) := by
  by_cases hd : denomFunction sqrtQ norm x = 0
  · refine ⟨⟨fun _ => hd, fun _ => ?_⟩, fun hne => absurd hd hne⟩
    exact ⟨_, by unfold nrmseForward; rw [if_pos hd]⟩
  · constructor
    · constructor
      · rintro ⟨e, he⟩
        unfold nrmseForward at he
        rw [if_neg hd] at he
        exact absurd he (by simp)
      · intro h
        exact absurd h hd
    · intro _
      unfold nrmseForward
      rw [if_neg hd]

/-- C5 witness: with the identity in place of `torch.sqrt`, euclidean
normalization on `x = [1]` has denominator `1 ≠ 0` and the forward pass
returns `0/1 = 0` for `y = [1]`. -/
theorem claim5_witness :
    denomFunction (fun q => q) Normalization.euclidean [1] ≠ 0 ∧
    nrmseForward (fun q => q) Normalization.euclidean false [1] [1] =
      Except.ok 0 := by
  have hd : denomFunction (fun q => q) Normalization.euclidean [1] ≠ 0 := by
    norm_num [denomFunction, meanList]
  refine ⟨hd, ?_⟩
  have h := (claim5_nrmse_degenerate (fun q => q) Normalization.euclidean
    false [1] [1] rfl).2 hd
  rw [h]
  norm_num [meanList, denomFunction]

/-- Convolving the all-zero batch gives the all-zero batch. -/
theorem conv2d_zero (kernel : ℕ → ℕ → ℚ) (ks pad H W : ℕ) :
    conv2d kernel ks pad H W zeroImg = zeroImg := by
  funext b c i j
  simp [conv2d, paddedAt, zeroImg]

/-- The elementwise product of zero batches is the zero batch. -/
theorem mulI_zero : mulI zeroImg zeroImg = zeroImg := by
  funext b c i j
  simp [mulI, zeroImg]

/-- Every entry of the SSIM map of two all-zero batches is
`c1*c2 / (c1*c2 + 1e-12) = 90000/90001`. -/
theorem ssimMap_zero (kernel : ℕ → ℕ → ℚ) (ks H W b c i j : ℕ) :
    ssimMap kernel ks H W zeroImg zeroImg b c i j = 90000 / 90001 := by
  simp only [ssimMap, mulI_zero, conv2d_zero]
  show ((2 * zeroImg b c i j * zeroImg b c i j + ssimC1) * _) / _ = _
  simp only [zeroImg]
  norm_num [ssimC1, ssimC2, ssimEps]

/-- The mean over a nondegenerate shape of a pointwise-constant batch is
that constant. -/
theorem mean4_const (B C H W : ℕ) (q : ℚ) (f : Img4)
    (hf : ∀ b c i j, f b c i j = q) (h : (B : ℚ) * C * H * W ≠ 0) :
    mean4 B C H W f = q := by
  unfold mean4
  have : (∑ b ∈ Finset.range B, ∑ c ∈ Finset.range C,
      ∑ i ∈ Finset.range H, ∑ j ∈ Finset.range W, f b c i j) =
      (B : ℚ) * C * H * W * q := by
    simp only [hf, Finset.sum_const, Finset.card_range, smul_eq_mul]
    ring
  rw [this]
  field_simp

/-- C7 (code bug): the repository's own test
(`tests/evaluation/test_loss.py::TestSSIM::test_empty_zero_images`) calls
`SSIMLoss(reduction="none")` on two zero `(2, 3, 256, 192)` batches and
expects `[0.0, 0.0]`, but the `SSIMLoss` of
`src/olimp/evaluation/loss/ssim.py` accepts no `reduction` keyword at all,
and on zero batches its loss form evaluates to the scalar
`1/90001 ≠ 0` (every entry of its raw map being `90000/90001`, not `0`),
so neither branch of `forward` can produce the expected per-sample
zeros. -/
theorem claim7_code_bug :
    ssimLossInitKeywords.contains "reduction" = false ∧
    (∀ kernel : ℕ → ℕ → ℚ,
      ssimForwardLoss kernel 11 2 3 256 192 zeroImg zeroImg = 1 / 90001 ∧
      (∀ b c i j,
        ssimMap kernel 11 256 192 zeroImg zeroImg b c i j = 90000 / 90001)) ∧
    0 < (1 / 90001 : ℚ) := by
  refine ⟨by decide, fun kernel => ⟨?_, fun b c i j => ssimMap_zero _ _ _ _ _ _ _ _⟩,
    by norm_num⟩
  unfold ssimForwardLoss
  rw [mean4_const 2 3 (convOutDim 11 256) (convOutDim 11 192) (90000 / 90001)
    _ (fun b c i j => ssimMap_zero kernel 11 256 192 b c i j)
    (by norm_num [convOutDim])]
  norm_num

/-- C8: the SSIM computation is symmetric in its two image arguments, both
as the raw SSIM map of `_ssim` and as the loss form `1 - map.mean()` of
`forward`. -/
theorem claim8_ssim_symmetric (kernel : ℕ → ℕ → ℚ) (ks H W : ℕ)
    (x y : Img4) :
    ssimMap kernel ks H W x y = ssimMap kernel ks H W y x ∧
    (∀ B C : ℕ, ssimForwardLoss kernel ks B C H W x y =
      ssimForwardLoss kernel ks B C H W y x) := by
  have hmul : mulI x y = mulI y x := by
    funext b c i j
    exact mul_comm _ _
  have hmap : ssimMap kernel ks H W x y = ssimMap kernel ks H W y x := by
    funext b c i j
    simp only [ssimMap, hmul]
    ring
  exact ⟨hmap, fun B C => by unfold ssimForwardLoss; rw [hmap]⟩

/-- C9: `RMS` is deterministic given its inputs: invoked twice in the same
process — under any two ambient global-RNG states — it produces identical
outputs and leaves the global state untouched, because its pseudorandom
neighbor offsets come from a local generator seeded by the hash of the
mean pixel value of the inputs; accordingly the generated neighbors depend
on the images only through that mean (and the shapes). -/
theorem claim9_rms_deterministic (G : Type) (g g' : G) (hashQ : ℚ → ℤ)
    (gauss : ℤ → ℕ → ℚ) (sqrtQ : ℚ → ℚ) (toLab toProlab : ImgHWC → ImgHWC)
    (cs : RMSColorSpace) (n step : ℕ) (sr : ℚ) (img1 img2 : Tens) :
    (RMS hashQ gauss sqrtQ toLab toProlab cs n step sr img1 img2 g).1 =
      (RMS hashQ gauss sqrtQ toLab toProlab cs n step sr img1 img2 g').1 ∧
    (RMS hashQ gauss sqrtQ toLab toProlab cs n step sr img1 img2 g).2 = g ∧
    (∀ (H W : ℕ) (a1 a2 b1 b2 : ImgHWC),
      meanImgSum H W a1 a2 = meanImgSum H W b1 b2 →
      generate_random_neighbors hashQ gauss H W a1 a2 n step sr =
        generate_random_neighbors hashQ gauss H W b1 b2 n step sr) := by
  refine ⟨rfl, rfl, fun H W a1 a2 b1 b2 h => ?_⟩
  unfold generate_random_neighbors
  rw [h]

/-- C9 witness: concrete instantiation on a zero `(3, 1, 1)` tensor with
two distinct global states, plus the neighbor-generation invariance at
equal mean. -/
theorem claim9_witness :
    (RMS (fun _ => 0) (fun _ _ => 0) (fun q => q) (fun i => i) (fun i => i)
      RMSColorSpace.lab 1 10 0 ⟨[3, 1, 1], fun _ => 0⟩
      ⟨[3, 1, 1], fun _ => 0⟩ (0 : ℕ)).1 =
    (RMS (fun _ => 0) (fun _ _ => 0) (fun q => q) (fun i => i) (fun i => i)
      RMSColorSpace.lab 1 10 0 ⟨[3, 1, 1], fun _ => 0⟩
      ⟨[3, 1, 1], fun _ => 0⟩ (1 : ℕ)).1 ∧
    generate_random_neighbors (fun _ => 0) (fun _ _ => 0) 1 1
      (fun _ _ _ => 0) (fun _ _ _ => 0) 1 10 0 =
    generate_random_neighbors (fun _ => 0) (fun _ _ => 0) 1 1
      (fun _ _ _ => 1) (fun _ _ _ => (-1 : ℚ)) 1 10 0 := by
  have h := claim9_rms_deterministic ℕ 0 1 (fun _ => 0) (fun _ _ => 0)
    (fun q => q) (fun i => i) (fun i => i) RMSColorSpace.lab 1 10 0
    ⟨[3, 1, 1], fun _ => 0⟩ ⟨[3, 1, 1], fun _ => 0⟩
  refine ⟨h.1, h.2.2 1 1 (fun _ _ _ => 0) (fun _ _ _ => 0)
    (fun _ _ _ => 1) (fun _ _ _ => (-1 : ℚ)) ?_⟩
  norm_num [meanImgSum]

/-- C10: the `RMS` entry point accepts exactly the tensors with 3 or 4
axes whose (promoted) channel axis is 3: on acceptance it returns one
score per (promoted) batch element, a 3-d input being promoted to a batch
of one; any other dimensionality or channel count is rejected by an
assertion. -/
theorem claim10_rms_shape (hashQ : ℚ → ℤ) (gauss : ℤ → ℕ → ℚ)
    (sqrtQ : ℚ → ℚ) (toLab toProlab : ImgHWC → ImgHWC) (cs : RMSColorSpace)
    (n step : ℕ) (sr : ℚ) (img1 img2 : Tens) :
    ((img1.dim = 3 ∨ img1.dim = 4) → (img2.dim = 3 ∨ img2.dim = 4) →
      (promote img1).shape.getD 1 0 = 3 →
      (promote img2).shape.getD 1 0 = 3 →
      ∃ l, RMSpure hashQ gauss sqrtQ toLab toProlab cs n step sr img1 img2 =
        Except.ok l ∧ l.length = (promote img1).shape.headD 0) ∧
    (¬((img1.dim = 3 ∨ img1.dim = 4) ∧ (img2.dim = 3 ∨ img2.dim = 4) ∧
        (promote img1).shape.getD 1 0 = 3 ∧
        (promote img2).shape.getD 1 0 = 3) →
      (RMSpure hashQ gauss sqrtQ toLab toProlab cs n step sr
        img1 img2).isOk = false) ∧
    (img1.dim = 3 → (promote img1).shape.headD 0 = 1) := by
  refine ⟨?_, ?_, ?_⟩
  · intro h1 h2 h3 h4
    simp only [RMSpure]
    rw [if_neg (not_not_intro h1), if_neg (not_not_intro h2),
      if_neg (not_not_intro h3), if_neg (not_not_intro h4)]
    exact ⟨_, rfl, by simp⟩
  · intro hn
    simp only [RMSpure]
    split_ifs with a b cnd d
    any_goals rfl
    exact absurd ⟨a, b, not_not.mp cnd, not_not.mp d⟩ hn
  · intro h
    simp [promote, h, Tens.unsqueeze0]

/-- C10 witness: a zero `(3, 2, 2)` tensor is promoted and scored with one
output per batch element; a 2-d tensor is rejected. -/
theorem claim10_witness :
    (∃ l, RMSpure (fun _ => 0) (fun _ _ => 0) (fun q => q) (fun i => i)
      (fun i => i) RMSColorSpace.lab 1 10 0 ⟨[3, 2, 2], fun _ => 0⟩
      ⟨[3, 2, 2], fun _ => 0⟩ = Except.ok l ∧ l.length = 1) ∧
    (RMSpure (fun _ => 0) (fun _ _ => 0) (fun q => q) (fun i => i)
      (fun i => i) RMSColorSpace.lab 1 10 0 ⟨[2, 2], fun _ => 0⟩
      ⟨[2, 2], fun _ => 0⟩).isOk = false := by
  constructor
  · obtain ⟨l, hl, hlen⟩ := (claim10_rms_shape (fun _ => 0) (fun _ _ => 0)
      (fun q => q) (fun i => i) (fun i => i) RMSColorSpace.lab 1 10 0
      ⟨[3, 2, 2], fun _ => 0⟩ ⟨[3, 2, 2], fun _ => 0⟩).1
      (Or.inl rfl) (Or.inl rfl) rfl rfl
    exact ⟨l, hl, hlen.trans rfl⟩
  · refine (claim10_rms_shape (fun _ => 0) (fun _ _ => 0) (fun q => q)
      (fun i => i) (fun i => i) RMSColorSpace.lab 1 10 0
      ⟨[2, 2], fun _ => 0⟩ ⟨[2, 2], fun _ => 0⟩).2.1 ?_
    rintro ⟨hA, -⟩
    rcases hA with h | h <;> exact absurd h (by decide)

end Olimp
